import Mathlib

/-!
Verification of the greetd client and session state machine of ReGreet
(`src/client.rs`), plus the teardown handler (`src/gui/model.rs`) and the
wire codec described by the specification.

The Rust code is shallowly embedded: the socket is represented by
`Option Unit` (demo mode ⇔ `none`), and each request/response round trip is
parameterised by the outcome of the socket write and the socket read, so
that theorems can quantify over every transport behaviour.
-/

namespace ReGreet

/-- Error value carried by failed socket writes/reads (the `codec::Error` of
the IPC library); its payload is irrelevant to the client logic, so it is
modelled as an abstract numeric code. -/
structure GreetdError where
  code : Nat
  deriving Repr, DecidableEq

/-- Model of `AuthMessageType` of the IPC library (kinds of authentication prompt). -/
inductive AuthMessageType
  | visible
  | secret
  | info
  | error
  deriving Repr, DecidableEq

/-- Model of `ErrorType` of the IPC library. -/
inductive ErrorType
  | authError
  | error
  deriving Repr, DecidableEq

/-- Model of `Response` of the IPC library: what the broker sends back. -/
inductive Response
  | success
  | authMessage (auth_message_type : AuthMessageType) (auth_message : String)
  | error (error_type : ErrorType) (description : String)
  deriving Repr, DecidableEq

/-- Model of `Request` of the IPC library: what the client sends. -/
inductive Request
  | createSession (username : String)
  | postAuthMessageResponse (response : Option String)
  | startSession (cmd : List String) (env : List String)
  | cancelSession
  deriving Repr, DecidableEq

/-- The authentication status of the current greetd session (`AuthStatus`,
src/client.rs lines 29-34). -/
inductive AuthStatus
  | notStarted
  | inProgress
  | done
  deriving Repr, DecidableEq

/-- Client that communicates with greetd (`GreetdClient`, src/client.rs lines
36-42).  The socket carries no data in the model: only its presence matters
(`none` in demo mode). -/
structure GreetdClient where
  socket : Option Unit
  auth_status : AuthStatus
  deriving Repr, DecidableEq

/-- Demo mode constant `DEMO_AUTH_MSG_OPT` (src/client.rs line 20). -/
def DEMO_AUTH_MSG_OPT : String := "One-Time Password:"

/-- Demo mode constant `DEMO_AUTH_MSG_PASSWD` (src/client.rs line 21). -/
def DEMO_AUTH_MSG_PASSWD : String := "Password:"

/-- Demo mode constant `DEMO_AUTH_MSG_ERROR` (src/client.rs line 22). -/
def DEMO_AUTH_MSG_ERROR : String := "pam_authenticate: AUTH_ERR"

/-- Demo mode constant `DEMO_OTP` (src/client.rs line 23). -/
def DEMO_OTP : String := "0248"

/-- Demo mode constant `DEMO_PASSWD` (src/client.rs line 24). -/
def DEMO_PASSWD : String := "pass"

/-! ### Wire codec

The codec itself lives in the external IPC library (`greetd_ipc`), not in
this repository's sources, so it is modelled from the specification: each
message is framed as a 32-bit unsigned big-endian length header followed by
that many bytes of UTF-8 JSON, whose shape is a discriminant `"type"` field
plus variant-specific fields (§4.1, §6). -/

/-- Modelled from the spec: UTF-8 encoding of one Unicode scalar value
(the "UTF-8 JSON body" byte encoding of §4.1). -/
def utf8EncodeNat (n : Nat) : List Nat :=
  if n < 128 then [n]
  else if n < 2048 then [192 + n / 64, 128 + n % 64]
  else if n < 65536 then [224 + n / 4096, 128 + n / 64 % 64, 128 + n % 64]
  else [240 + n / 262144, 128 + n / 4096 % 64, 128 + n / 64 % 64, 128 + n % 64]

/-- Modelled from the spec: UTF-8 decoding of the first scalar value of a
byte list, rejecting malformed and overlong sequences. -/
def utf8DecodeNat : List Nat → Option (Nat × List Nat)
  | [] => none
  | b :: rest =>
    if b < 128 then some (b, rest)
    else if b < 192 then none
    else if b < 224 then
      match rest with
      | b2 :: rest2 =>
        if 128 ≤ b2 ∧ b2 < 192 then
          let n := (b - 192) * 64 + (b2 - 128)
          if n < 128 then none else some (n, rest2)
        else none
      | [] => none
    else if b < 240 then
      match rest with
      | b2 :: b3 :: rest2 =>
        if (128 ≤ b2 ∧ b2 < 192) ∧ (128 ≤ b3 ∧ b3 < 192) then
          let n := (b - 224) * 4096 + (b2 - 128) * 64 + (b3 - 128)
          if n < 2048 then none else some (n, rest2)
        else none
      | _ => none
    else if b < 248 then
      match rest with
      | b2 :: b3 :: b4 :: rest2 =>
        if (128 ≤ b2 ∧ b2 < 192) ∧ (128 ≤ b3 ∧ b3 < 192) ∧ (128 ≤ b4 ∧ b4 < 192) then
          let n := (b - 240) * 262144 + (b2 - 128) * 4096 + (b3 - 128) * 64 + (b4 - 128)
          if n < 65536 then none else some (n, rest2)
        else none
      | _ => none
    else none

theorem utf8DecodeNat_encode (n : Nat) (h : n < 1114112) (rest : List Nat) :
    utf8DecodeNat (utf8EncodeNat n ++ rest) = some (n, rest) := by
  by_cases h1 : n < 128
  · simp only [utf8EncodeNat, if_pos h1, List.cons_append, List.nil_append,
      utf8DecodeNat, if_pos h1]
  · by_cases h2 : n < 2048
    · have e1 : ¬ (192 + n / 64 < 128) := by omega
      have e2 : ¬ (192 + n / 64 < 192) := by omega
      have e3 : 192 + n / 64 < 224 := by omega
      have e4 : 128 ≤ 128 + n % 64 ∧ 128 + n % 64 < 192 := by omega
      have e5 : ¬ ((192 + n / 64 - 192) * 64 + (128 + n % 64 - 128) < 128) := by omega
      have e6 : (192 + n / 64 - 192) * 64 + (128 + n % 64 - 128) = n := by omega
      simp only [utf8EncodeNat, if_neg h1, if_pos h2, List.cons_append, List.nil_append,
        utf8DecodeNat, if_neg e1, if_neg e2, if_pos e3, if_pos e4, if_neg e5, e6]
    · by_cases h3 : n < 65536
      · have e1 : ¬ (224 + n / 4096 < 128) := by omega
        have e2 : ¬ (224 + n / 4096 < 192) := by omega
        have e3 : ¬ (224 + n / 4096 < 224) := by omega
        have e4 : 224 + n / 4096 < 240 := by omega
        have e5 : (128 ≤ 128 + n / 64 % 64 ∧ 128 + n / 64 % 64 < 192) ∧
            128 ≤ 128 + n % 64 ∧ 128 + n % 64 < 192 := by omega
        have e6 : ¬ ((224 + n / 4096 - 224) * 4096 + (128 + n / 64 % 64 - 128) * 64 +
            (128 + n % 64 - 128) < 2048) := by omega
        have e7 : (224 + n / 4096 - 224) * 4096 + (128 + n / 64 % 64 - 128) * 64 +
            (128 + n % 64 - 128) = n := by omega
        simp only [utf8EncodeNat, if_neg h1, if_neg h2, if_pos h3, List.cons_append,
          List.nil_append, utf8DecodeNat, if_neg e1, if_neg e2, if_neg e3, if_pos e4,
          if_pos e5, if_neg e6, e7]
      · have e1 : ¬ (240 + n / 262144 < 128) := by omega
        have e2 : ¬ (240 + n / 262144 < 192) := by omega
        have e3 : ¬ (240 + n / 262144 < 224) := by omega
        have e4 : ¬ (240 + n / 262144 < 240) := by omega
        have e5 : 240 + n / 262144 < 248 := by omega
        have e6 : (128 ≤ 128 + n / 4096 % 64 ∧ 128 + n / 4096 % 64 < 192) ∧
            (128 ≤ 128 + n / 64 % 64 ∧ 128 + n / 64 % 64 < 192) ∧
            128 ≤ 128 + n % 64 ∧ 128 + n % 64 < 192 := by omega
        have e7 : ¬ ((240 + n / 262144 - 240) * 262144 + (128 + n / 4096 % 64 - 128) * 4096 +
            (128 + n / 64 % 64 - 128) * 64 + (128 + n % 64 - 128) < 65536) := by omega
        have e8 : (240 + n / 262144 - 240) * 262144 + (128 + n / 4096 % 64 - 128) * 4096 +
            (128 + n / 64 % 64 - 128) * 64 + (128 + n % 64 - 128) = n := by omega
        simp only [utf8EncodeNat, if_neg h1, if_neg h2, if_neg h3, List.cons_append,
          List.nil_append, utf8DecodeNat, if_neg e1, if_neg e2, if_neg e3, if_neg e4,
          if_pos e5, if_pos e6, if_neg e7, e8]

theorem utf8EncodeNat_cons (n : Nat) : ∃ b bs, utf8EncodeNat n = b :: bs := by
  unfold utf8EncodeNat
  split_ifs <;> exact ⟨_, _, rfl⟩

/-- Modelled from the spec: UTF-8 encoding of a character sequence. -/
def utf8Encode (l : List Char) : List Nat :=
  l.flatMap (fun c => utf8EncodeNat c.toNat)

/-- Modelled from the spec: fuelled UTF-8 decoding of an entire byte list
back into characters, rejecting invalid scalar values. -/
def utf8DecodeAll : Nat → List Nat → Option (List Char)
  | _, [] => some []
  | 0, _ :: _ => none
  | fuel + 1, b :: rest =>
    match utf8DecodeNat (b :: rest) with
    | none => none
    | some (n, rest2) =>
      if n.isValidChar then
        match utf8DecodeAll fuel rest2 with
        | none => none
        | some cs => some (Char.ofNat n :: cs)
      else none

theorem length_le_utf8Encode (l : List Char) : l.length ≤ (utf8Encode l).length := by
  induction l with
  | nil => simp [utf8Encode]
  | cons c t ih =>
    obtain ⟨b, bs, he⟩ := utf8EncodeNat_cons c.toNat
    simp only [utf8Encode, List.flatMap_cons, List.length_append, List.length_cons, he] at *
    omega

theorem utf8DecodeAll_encode (l : List Char) (fuel : Nat) (h : l.length ≤ fuel) :
    utf8DecodeAll fuel (utf8Encode l) = some l := by
  induction l generalizing fuel with
  | nil => cases fuel <;> rfl
  | cons c t ih =>
    cases fuel with
    | zero => simp at h
    | succ fuel =>
      have hv : c.toNat.isValidChar := c.valid
      have hlt : c.toNat < 1114112 := by
        rcases hv with h' | ⟨_, h'⟩ <;> omega
      obtain ⟨b, bs, he⟩ := utf8EncodeNat_cons c.toNat
      have henc : utf8Encode (c :: t) = b :: (bs ++ utf8Encode t) := by
        simp [utf8Encode, List.flatMap_cons, he]
      rw [henc]
      have hdec : utf8DecodeNat (b :: (bs ++ utf8Encode t)) = some (c.toNat, utf8Encode t) := by
        have := utf8DecodeNat_encode c.toNat hlt (utf8Encode t)
        rwa [he, List.cons_append] at this
      simp only [utf8DecodeAll, hdec, if_pos hv, ih fuel (by simpa using Nat.lt_succ_iff.mp h),
        Char.ofNat_toNat]

/-- Modelled from the spec: lower-case hexadecimal digit characters used in
JSON `\u00XX` escapes. -/
def hexDigit : Nat → Char
  | 0 => '0' | 1 => '1' | 2 => '2' | 3 => '3' | 4 => '4'
  | 5 => '5' | 6 => '6' | 7 => '7' | 8 => '8' | 9 => '9'
  | 10 => 'a' | 11 => 'b' | 12 => 'c' | 13 => 'd' | 14 => 'e'
  | _ => 'f'

/-- Modelled from the spec: value of a hexadecimal digit character. -/
def hexVal (c : Char) : Option Nat :=
  if c = '0' then some 0 else if c = '1' then some 1 else if c = '2' then some 2
  else if c = '3' then some 3 else if c = '4' then some 4 else if c = '5' then some 5
  else if c = '6' then some 6 else if c = '7' then some 7 else if c = '8' then some 8
  else if c = '9' then some 9 else if c = 'a' then some 10 else if c = 'b' then some 11
  else if c = 'c' then some 12 else if c = 'd' then some 13 else if c = 'e' then some 14
  else if c = 'f' then some 15 else none

theorem hexVal_hexDigit (n : Nat) (h : n < 16) : hexVal (hexDigit n) = some n := by
  interval_cases n <;> rfl

/-- Modelled from the spec: JSON escaping of a single character inside a
string literal (quote and backslash are escaped, control characters become
`\u00XX`). -/
def escapeChar (c : Char) : List Char :=
  if c = '"' then ['\\', '"']
  else if c = '\\' then ['\\', '\\']
  else if c.toNat < 32 then
    ['\\', 'u', '0', '0', hexDigit (c.toNat / 16), hexDigit (c.toNat % 16)]
  else [c]

/-- Modelled from the spec: print a JSON string literal. -/
def printJString (s : List Char) : List Char :=
  '"' :: (s.flatMap escapeChar ++ ['"'])

/-- Modelled from the spec: parse the remainder of a JSON string literal
(after the opening quote), fuelled by the input length. -/
def parseJStringAux : Nat → List Char → Option (List Char × List Char)
  | _, [] => none
  | 0, _ :: _ => none
  | fuel + 1, c :: rest =>
    if c = '"' then some ([], rest)
    else if c = '\\' then
      match rest with
      | [] => none
      | e :: rest2 =>
        if e = '"' then
          match parseJStringAux fuel rest2 with
          | some (s, r) => some ('"' :: s, r)
          | none => none
        else if e = '\\' then
          match parseJStringAux fuel rest2 with
          | some (s, r) => some ('\\' :: s, r)
          | none => none
        else if e = 'u' then
          match rest2 with
          | h1 :: h2 :: h3 :: h4 :: rest3 =>
            match hexVal h1, hexVal h2, hexVal h3, hexVal h4 with
            | some v1, some v2, some v3, some v4 =>
              let n := ((v1 * 16 + v2) * 16 + v3) * 16 + v4
              if hn : n.isValidChar then
                match parseJStringAux fuel rest3 with
                | some (s, r) => some (Char.ofNat n :: s, r)
                | none => none
              else none
            | _, _, _, _ => none
          | _ => none
        else none
    else
      match parseJStringAux fuel rest with
      | some (s, r) => some (c :: s, r)
      | none => none

/-- Modelled from the spec: parse a JSON string literal, returning the
decoded characters and the unconsumed remainder. -/
def parseJString (l : List Char) : Option (List Char × List Char) :=
  match l with
  | '"' :: rest => parseJStringAux rest.length rest
  | _ => none

theorem length_le_flatMap_escapeChar (s : List Char) :
    s.length ≤ (s.flatMap escapeChar).length := by
  induction s with
  | nil => simp
  | cons c t ih =>
    have : 1 ≤ (escapeChar c).length := by
      unfold escapeChar
      split_ifs <;> simp
    simp only [List.flatMap_cons, List.length_append, List.length_cons]
    omega

theorem parseJStringAux_esc_quote (fuel : Nat) (l : List Char) :
    parseJStringAux (fuel + 1) ('\\' :: '"' :: l) =
      match parseJStringAux fuel l with
      | some (s, r) => some ('"' :: s, r)
      | none => none := rfl

theorem parseJStringAux_esc_backslash (fuel : Nat) (l : List Char) :
    parseJStringAux (fuel + 1) ('\\' :: '\\' :: l) =
      match parseJStringAux fuel l with
      | some (s, r) => some ('\\' :: s, r)
      | none => none := rfl

theorem parseJStringAux_esc_u (fuel : Nat) (a b d e : Char) (l : List Char) :
    parseJStringAux (fuel + 1) ('\\' :: 'u' :: a :: b :: d :: e :: l) =
      match hexVal a, hexVal b, hexVal d, hexVal e with
      | some v1, some v2, some v3, some v4 =>
        if hn : (((v1 * 16 + v2) * 16 + v3) * 16 + v4).isValidChar then
          match parseJStringAux fuel l with
          | some (s, r) => some (Char.ofNat (((v1 * 16 + v2) * 16 + v3) * 16 + v4) :: s, r)
          | none => none
        else none
      | _, _, _, _ => none := rfl

theorem parseJStringAux_plain (fuel : Nat) (c : Char) (l : List Char)
    (h1 : ¬ c = '"') (h2 : ¬ c = '\\') :
    parseJStringAux (fuel + 1) (c :: l) =
      match parseJStringAux fuel l with
      | some (s, r) => some (c :: s, r)
      | none => none := by
  show (if c = '"' then some ([], l) else _) = _
  rw [if_neg h1, if_neg h2]

theorem parseJStringAux_print (s : List Char) (rest : List Char) (fuel : Nat)
    (h : s.length < fuel) :
    parseJStringAux fuel (s.flatMap escapeChar ++ ('"' :: rest)) = some (s, rest) := by
  induction s generalizing fuel with
  | nil =>
    cases fuel with
    | zero => omega
    | succ fuel => rfl
  | cons c t ih =>
    cases fuel with
    | zero => simp at h
    | succ fuel =>
    have ht : t.length < fuel := by
      simp only [List.length_cons] at h
      omega
    by_cases h1 : c = '"'
    · subst h1
      have he : escapeChar '"' = ['\\', '"'] := rfl
      rw [List.flatMap_cons, he]
      show parseJStringAux (fuel + 1)
        ('\\' :: '"' :: (t.flatMap escapeChar ++ ('"' :: rest))) = _
      rw [parseJStringAux_esc_quote, ih fuel ht]
    · by_cases h2 : c = '\\'
      · subst h2
        have he : escapeChar '\\' = ['\\', '\\'] := rfl
        rw [List.flatMap_cons, he]
        show parseJStringAux (fuel + 1)
          ('\\' :: '\\' :: (t.flatMap escapeChar ++ ('"' :: rest))) = _
        rw [parseJStringAux_esc_backslash, ih fuel ht]
      · by_cases h3 : c.toNat < 32
        · have hv : c.toNat.isValidChar := c.valid
          have hd1 : hexVal (hexDigit (c.toNat / 16)) = some (c.toNat / 16) :=
            hexVal_hexDigit _ (by omega)
          have hd2 : hexVal (hexDigit (c.toNat % 16)) = some (c.toNat % 16) :=
            hexVal_hexDigit _ (by omega)
          have hz : hexVal '0' = some 0 := rfl
          have hn : ((0 * 16 + 0) * 16 + c.toNat / 16) * 16 + c.toNat % 16 = c.toNat := by
            omega
          have he : escapeChar c =
              ['\\', 'u', '0', '0', hexDigit (c.toNat / 16), hexDigit (c.toNat % 16)] := by
            unfold escapeChar
            rw [if_neg h1, if_neg h2, if_pos h3]
          rw [List.flatMap_cons, he]
          show parseJStringAux (fuel + 1)
            ('\\' :: 'u' :: '0' :: '0' :: hexDigit (c.toNat / 16) ::
              hexDigit (c.toNat % 16) :: (t.flatMap escapeChar ++ ('"' :: rest))) = _
          rw [parseJStringAux_esc_u, hz, hd1, hd2]
          simp only [hn]
          rw [dif_pos hv, ih fuel ht, Char.ofNat_toNat]
        · have he : escapeChar c = [c] := by
            unfold escapeChar
            rw [if_neg h1, if_neg h2, if_neg h3]
          rw [List.flatMap_cons, he]
          show parseJStringAux (fuel + 1)
            (c :: (t.flatMap escapeChar ++ ('"' :: rest))) = _
          rw [parseJStringAux_plain fuel c _ h1 h2, ih fuel ht]

theorem parseJString_print (s : List Char) (rest : List Char) :
    parseJString (printJString s ++ rest) = some (s, rest) := by
  have hlen : s.length < (s.flatMap escapeChar ++ ('"' :: rest)).length := by
    have := length_le_flatMap_escapeChar s
    simp only [List.length_append, List.length_cons]
    omega
  have : printJString s ++ rest = '"' :: (s.flatMap escapeChar ++ ('"' :: rest)) := by
    simp [printJString]
  rw [this]
  exact parseJStringAux_print s rest _ hlen

/-- Modelled from the spec: consume an expected literal character sequence
from the input. -/
def dropLit : List Char → List Char → Option (List Char)
  | [], l => some l
  | _ :: _, [] => none
  | p :: ps, c :: cs => if c = p then dropLit ps cs else none

theorem dropLit_append (p : List Char) (rest : List Char) :
    dropLit p (p ++ rest) = some rest := by
  induction p with
  | nil => rfl
  | cons c ps ih =>
    show (if c = c then dropLit ps (ps ++ rest) else none) = some rest
    rw [if_pos rfl, ih]

/-- Modelled from the spec: print the comma-separated elements of a JSON
array of strings. -/
def printStrListInner : List String → List Char
  | [] => []
  | s :: t =>
    match t with
    | [] => printJString s.data
    | _ :: _ => printJString s.data ++ (',' :: printStrListInner t)

/-- Modelled from the spec: print a JSON array of strings. -/
def printStrList (l : List String) : List Char :=
  '[' :: (printStrListInner l ++ [']'])

/-- Modelled from the spec: parse the elements of a non-empty JSON string
array up to and including the closing bracket, fuelled. -/
def parseStrListAux : Nat → List Char → Option (List String × List Char)
  | 0, _ => none
  | fuel + 1, l =>
    match parseJString l with
    | none => none
    | some (s, rest) =>
      match rest with
      | ',' :: rest2 =>
        match parseStrListAux fuel rest2 with
        | some (t, rest3) => some (String.mk s :: t, rest3)
        | none => none
      | ']' :: rest2 => some ([String.mk s], rest2)
      | _ => none

/-- Modelled from the spec: parse a JSON array of strings. -/
def parseStrList (l : List Char) : Option (List String × List Char) :=
  match l with
  | '[' :: rest =>
    match rest with
    | ']' :: rest2 => some ([], rest2)
    | _ => parseStrListAux rest.length rest
  | _ => none

theorem parseStrListAux_print (l : List String) (hl : l ≠ []) (rest : List Char)
    (fuel : Nat) (h : l.length ≤ fuel) :
    parseStrListAux fuel (printStrListInner l ++ (']' :: rest)) = some (l, rest) := by
  induction l generalizing fuel with
  | nil => exact absurd rfl hl
  | cons s t ih =>
    cases fuel with
    | zero => simp at h
    | succ fuel =>
    cases t with
    | nil =>
      show parseStrListAux (fuel + 1) (printJString s.data ++ (']' :: rest)) = _
      show (match parseJString (printJString s.data ++ (']' :: rest)) with
        | none => none
        | some (s', rest') =>
          match rest' with
          | ',' :: rest2 =>
            match parseStrListAux fuel rest2 with
            | some (t', rest3) => some (String.mk s' :: t', rest3)
            | none => none
          | ']' :: rest2 => some ([String.mk s'], rest2)
          | _ => none) = _
      rw [parseJString_print]
      rfl
    | cons s2 t2 =>
      have ht : s2 :: t2 ≠ [] := by simp
      have hf : (s2 :: t2).length ≤ fuel := by
        simp only [List.length_cons] at h ⊢
        omega
      show parseStrListAux (fuel + 1)
        ((printJString s.data ++ (',' :: printStrListInner (s2 :: t2))) ++ (']' :: rest)) = _
      rw [List.append_assoc]
      show (match parseJString (printJString s.data ++
          (',' :: printStrListInner (s2 :: t2) ++ (']' :: rest))) with
        | none => none
        | some (s', rest') =>
          match rest' with
          | ',' :: rest2 =>
            match parseStrListAux fuel rest2 with
            | some (t', rest3) => some (String.mk s' :: t', rest3)
            | none => none
          | ']' :: rest2 => some ([String.mk s'], rest2)
          | _ => none) = _
      rw [parseJString_print]
      show (match parseStrListAux fuel (printStrListInner (s2 :: t2) ++ (']' :: rest)) with
        | some (t', rest3) => some (String.mk s.data :: t', rest3)
        | none => none) = _
      rw [ih ht fuel hf]

theorem parseStrList_print (l : List String) (rest : List Char) :
    parseStrList (printStrList l ++ rest) = some (l, rest) := by
  cases l with
  | nil => rfl
  | cons s t =>
    show parseStrList ('[' :: ((printStrListInner (s :: t) ++ [']']) ++ rest)) = _
    rw [List.append_assoc]
    show parseStrList ('[' :: (printStrListInner (s :: t) ++ (']' :: rest))) = _
    have hstart : ∃ cs, printStrListInner (s :: t) ++ (']' :: rest) = '"' :: cs := by
      cases t with
      | nil => exact ⟨_, rfl⟩
      | cons s2 t2 => exact ⟨_, rfl⟩
    obtain ⟨cs, hcs⟩ := hstart
    rw [hcs]
    show parseStrListAux ('"' :: cs).length ('"' :: cs) = some (s :: t, rest)
    rw [← hcs]
    refine parseStrListAux_print (s :: t) (by simp) rest _ ?_
    have h1 : (s :: t).length ≤ (printStrListInner (s :: t)).length + 1 := by
      clear hcs cs
      induction (s :: t) with
      | nil => simp
      | cons a u ihu =>
        cases u with
        | nil => simp [printStrListInner, printJString]
        | cons b v =>
          simp only [printStrListInner, List.length_append, List.length_cons] at ihu ⊢
          omega
    have h2 : (printStrListInner (s :: t) ++ (']' :: rest)).length
        = (printStrListInner (s :: t)).length + 1 + rest.length := by
      simp only [List.length_append, List.length_cons]
      omega
    omega

/-- Modelled from the spec: print an optional string field value (`null`
when absent). -/
def printOptString : Option String → List Char
  | none => ['n', 'u', 'l', 'l']
  | some s => printJString s.data

/-- Modelled from the spec: parse an optional string field value. -/
def parseOptString (l : List Char) : Option (Option String × List Char) :=
  match l with
  | [] => none
  | c :: _ =>
    if c = 'n' then
      match dropLit ['n', 'u', 'l', 'l'] l with
      | some rest => some (none, rest)
      | none => none
    else
      match parseJString l with
      | some (cs, rest) => some (some (String.mk cs), rest)
      | none => none

theorem parseOptString_cons (c : Char) (l : List Char) :
    parseOptString (c :: l) =
      if c = 'n' then
        match dropLit ['n', 'u', 'l', 'l'] (c :: l) with
        | some rest => some (none, rest)
        | none => none
      else
        match parseJString (c :: l) with
        | some (cs, rest) => some (some (String.mk cs), rest)
        | none => none := rfl

theorem parseOptString_print (o : Option String) (rest : List Char) :
    parseOptString (printOptString o ++ rest) = some (o, rest) := by
  cases o with
  | none =>
    show parseOptString ('n' :: 'u' :: 'l' :: 'l' :: rest) = _
    rw [parseOptString_cons, if_pos rfl]
    have hd : dropLit ['n', 'u', 'l', 'l'] ('n' :: 'u' :: 'l' :: 'l' :: rest) = some rest :=
      dropLit_append ['n', 'u', 'l', 'l'] rest
    rw [hd]
  | some s =>
    show parseOptString ('"' :: ((s.data.flatMap escapeChar ++ ['"']) ++ rest)) = _
    rw [parseOptString_cons, if_neg (by decide : ¬ ('"' : Char) = 'n')]
    have heq : ('"' :: ((s.data.flatMap escapeChar ++ ['"']) ++ rest)) =
        printJString s.data ++ rest := by
      simp [printJString]
    rw [heq, parseJString_print]

theorem dropLit_self (p : List Char) : dropLit p p = some [] := by
  have := dropLit_append p []
  rwa [List.append_nil] at this

theorem mk_data (s : String) : String.mk s.data = s := rfl

/-- Modelled from the spec: the leading object-brace and `"type"`
discriminant key of every message body. -/
def objTypeLit : List Char := "\x7b\"type\":".data

/-- Modelled from the spec: the closing object brace. -/
def endObjLit : List Char := "\x7d".data

/-- Modelled from the spec: the `"username"` field key. -/
def usernameKeyLit : List Char := ",\"username\":".data

/-- Modelled from the spec: the `"response"` field key. -/
def responseKeyLit : List Char := ",\"response\":".data

/-- Modelled from the spec: the `"cmd"` field key. -/
def cmdKeyLit : List Char := ",\"cmd\":".data

/-- Modelled from the spec: the `"env"` field key. -/
def envKeyLit : List Char := ",\"env\":".data

/-- Modelled from the spec: the `"error_type"` field key. -/
def errorTypeKeyLit : List Char := ",\"error_type\":".data

/-- Modelled from the spec: the `"description"` field key. -/
def descriptionKeyLit : List Char := ",\"description\":".data

/-- Modelled from the spec: the `"auth_message_type"` field key. -/
def authMessageTypeKeyLit : List Char := ",\"auth_message_type\":".data

/-- Modelled from the spec: the `"auth_message"` field key. -/
def authMessageKeyLit : List Char := ",\"auth_message\":".data

/-- Modelled from the spec: serialize a `Request` into its JSON body (a
discriminant `"type"` field plus the variant-specific fields of §3). -/
def printRequest : Request → List Char
  | Request.createSession u =>
    objTypeLit ++ printJString "create_session".data ++ usernameKeyLit ++
      printJString u.data ++ endObjLit
  | Request.postAuthMessageResponse r =>
    objTypeLit ++ printJString "post_auth_message_response".data ++ responseKeyLit ++
      printOptString r ++ endObjLit
  | Request.startSession cmd env =>
    objTypeLit ++ printJString "start_session".data ++ cmdKeyLit ++ printStrList cmd ++
      envKeyLit ++ printStrList env ++ endObjLit
  | Request.cancelSession =>
    objTypeLit ++ printJString "cancel_session".data ++ endObjLit

/-- Modelled from the spec: parse a JSON body back into a `Request`,
requiring the whole input to be consumed. -/
def parseRequest (l : List Char) : Option Request :=
  match dropLit objTypeLit l with
  | none => none
  | some l1 =>
    match parseJString l1 with
    | none => none
    | some (tag, l2) =>
      if tag = "create_session".data then
        match dropLit usernameKeyLit l2 with
        | none => none
        | some l3 =>
          match parseJString l3 with
          | none => none
          | some (u, l4) =>
            match dropLit endObjLit l4 with
            | some [] => some (Request.createSession (String.mk u))
            | _ => none
      else if tag = "post_auth_message_response".data then
        match dropLit responseKeyLit l2 with
        | none => none
        | some l3 =>
          match parseOptString l3 with
          | none => none
          | some (r, l4) =>
            match dropLit endObjLit l4 with
            | some [] => some (Request.postAuthMessageResponse r)
            | _ => none
      else if tag = "start_session".data then
        match dropLit cmdKeyLit l2 with
        | none => none
        | some l3 =>
          match parseStrList l3 with
          | none => none
          | some (cmd, l4) =>
            match dropLit envKeyLit l4 with
            | none => none
            | some l5 =>
              match parseStrList l5 with
              | none => none
              | some (env, l6) =>
                match dropLit endObjLit l6 with
                | some [] => some (Request.startSession cmd env)
                | _ => none
      else if tag = "cancel_session".data then
        match dropLit endObjLit l2 with
        | some [] => some Request.cancelSession
        | _ => none
      else none

/-- Modelled from the spec: the JSON value of an `ErrorType`. -/
def errorTypeJson : ErrorType → List Char
  | ErrorType.authError => "auth_error".data
  | ErrorType.error => "error".data

/-- Modelled from the spec: parse an `ErrorType` JSON value. -/
def parseErrorType (cs : List Char) : Option ErrorType :=
  if cs = "auth_error".data then some ErrorType.authError
  else if cs = "error".data then some ErrorType.error
  else none

/-- Modelled from the spec: the JSON value of an `AuthMessageType`. -/
def authMessageTypeJson : AuthMessageType → List Char
  | AuthMessageType.visible => "visible".data
  | AuthMessageType.secret => "secret".data
  | AuthMessageType.info => "info".data
  | AuthMessageType.error => "error".data

/-- Modelled from the spec: parse an `AuthMessageType` JSON value. -/
def parseAuthMessageType (cs : List Char) : Option AuthMessageType :=
  if cs = "visible".data then some AuthMessageType.visible
  else if cs = "secret".data then some AuthMessageType.secret
  else if cs = "info".data then some AuthMessageType.info
  else if cs = "error".data then some AuthMessageType.error
  else none

theorem parseErrorType_json (t : ErrorType) :
    parseErrorType (errorTypeJson t) = some t := by
  cases t <;> rfl

theorem parseAuthMessageType_json (t : AuthMessageType) :
    parseAuthMessageType (authMessageTypeJson t) = some t := by
  cases t <;> rfl

/-- Modelled from the spec: serialize a `Response` into its JSON body. -/
def printResponse : Response → List Char
  | Response.success => objTypeLit ++ printJString "success".data ++ endObjLit
  | Response.error t d =>
    objTypeLit ++ printJString "error".data ++ errorTypeKeyLit ++
      printJString (errorTypeJson t) ++ descriptionKeyLit ++ printJString d.data ++
      endObjLit
  | Response.authMessage t m =>
    objTypeLit ++ printJString "auth_message".data ++ authMessageTypeKeyLit ++
      printJString (authMessageTypeJson t) ++ authMessageKeyLit ++
      printJString m.data ++ endObjLit

/-- Modelled from the spec: parse a JSON body back into a `Response`,
requiring the whole input to be consumed. -/
def parseResponse (l : List Char) : Option Response :=
  match dropLit objTypeLit l with
  | none => none
  | some l1 =>
    match parseJString l1 with
    | none => none
    | some (tag, l2) =>
      if tag = "success".data then
        match dropLit endObjLit l2 with
        | some [] => some Response.success
        | _ => none
      else if tag = "error".data then
        match dropLit errorTypeKeyLit l2 with
        | none => none
        | some l3 =>
          match parseJString l3 with
          | none => none
          | some (et, l4) =>
            match parseErrorType et with
            | none => none
            | some t =>
              match dropLit descriptionKeyLit l4 with
              | none => none
              | some l5 =>
                match parseJString l5 with
                | none => none
                | some (d, l6) =>
                  match dropLit endObjLit l6 with
                  | some [] => some (Response.error t (String.mk d))
                  | _ => none
      else if tag = "auth_message".data then
        match dropLit authMessageTypeKeyLit l2 with
        | none => none
        | some l3 =>
          match parseJString l3 with
          | none => none
          | some (mt, l4) =>
            match parseAuthMessageType mt with
            | none => none
            | some t =>
              match dropLit authMessageKeyLit l4 with
              | none => none
              | some l5 =>
                match parseJString l5 with
                | none => none
                | some (m, l6) =>
                  match dropLit endObjLit l6 with
                  | some [] => some (Response.authMessage t (String.mk m))
                  | _ => none
      else none

theorem parseRequest_print (r : Request) : parseRequest (printRequest r) = some r := by
  cases r with
  | createSession u =>
    simp only [printRequest, List.append_assoc, parseRequest, dropLit_append,
      parseJString_print, eq_self_iff_true, if_true, dropLit_self, mk_data]
  | postAuthMessageResponse o =>
    have h1 : ("post_auth_message_response".data = "create_session".data) = False := by
      decide
    simp only [printRequest, List.append_assoc, parseRequest, dropLit_append,
      parseJString_print, h1, if_false, eq_self_iff_true, if_true,
      parseOptString_print, dropLit_self]
  | startSession cmd env =>
    have h1 : ("start_session".data = "create_session".data) = False := by decide
    have h2 : ("start_session".data = "post_auth_message_response".data) = False := by
      decide
    simp only [printRequest, List.append_assoc, parseRequest, dropLit_append,
      parseJString_print, h1, h2, if_false, eq_self_iff_true, if_true,
      parseStrList_print, dropLit_self]
  | cancelSession =>
    have h1 : ("cancel_session".data = "create_session".data) = False := by decide
    have h2 : ("cancel_session".data = "post_auth_message_response".data) = False := by
      decide
    have h3 : ("cancel_session".data = "start_session".data) = False := by decide
    simp only [printRequest, List.append_assoc, parseRequest, dropLit_append,
      parseJString_print, h1, h2, h3, if_false, eq_self_iff_true, if_true, dropLit_self]

theorem parseResponse_print (r : Response) : parseResponse (printResponse r) = some r := by
  cases r with
  | success =>
    simp only [printResponse, List.append_assoc, parseResponse, dropLit_append,
      parseJString_print, eq_self_iff_true, if_true, dropLit_self]
  | error t d =>
    have h1 : ("error".data = "success".data) = False := by decide
    simp only [printResponse, List.append_assoc, parseResponse, dropLit_append,
      parseJString_print, h1, if_false, eq_self_iff_true, if_true,
      parseErrorType_json, dropLit_self, mk_data]
  | authMessage t m =>
    have h1 : ("auth_message".data = "success".data) = False := by decide
    have h2 : ("auth_message".data = "error".data) = False := by decide
    simp only [printResponse, List.append_assoc, parseResponse, dropLit_append,
      parseJString_print, h1, h2, if_false, eq_self_iff_true, if_true,
      parseAuthMessageType_json, dropLit_self, mk_data]

/-- Modelled from the spec: the 32-bit unsigned big-endian length header of
§4.1 (the length is reduced modulo 2^32 by the 32-bit representation). -/
def be32 (n : Nat) : List Nat :=
  [n / 16777216 % 256, n / 65536 % 256, n / 256 % 256, n % 256]

/-- Modelled from the spec: frame a JSON body as
`[4-byte big-endian length][UTF-8 JSON body]`. -/
def frameMessage (body : List Nat) : List Nat :=
  be32 body.length ++ body

/-- Modelled from the spec: read one framed message from a byte stream,
returning the body and the unconsumed remainder of the stream. -/
def unframeMessage : List Nat → Option (List Nat × List Nat)
  | b0 :: b1 :: b2 :: b3 :: rest =>
    let n := ((b0 * 256 + b1) * 256 + b2) * 256 + b3
    if n ≤ rest.length then some (rest.take n, rest.drop n) else none
  | _ => none

theorem unframeMessage_frame (body extra : List Nat) (h : body.length < 4294967296) :
    unframeMessage (frameMessage body ++ extra) = some (body, extra) := by
  have hshape : frameMessage body ++ extra =
      (body.length / 16777216 % 256) :: (body.length / 65536 % 256) ::
      (body.length / 256 % 256) :: (body.length % 256) :: (body ++ extra) := by
    simp [frameMessage, be32]
  rw [hshape]
  have hn : ((body.length / 16777216 % 256 * 256 + body.length / 65536 % 256) * 256 +
      body.length / 256 % 256) * 256 + body.length % 256 = body.length := by
    omega
  show (if ((body.length / 16777216 % 256 * 256 + body.length / 65536 % 256) * 256 +
      body.length / 256 % 256) * 256 + body.length % 256 ≤ (body ++ extra).length then
      some ((body ++ extra).take (((body.length / 16777216 % 256 * 256 +
        body.length / 65536 % 256) * 256 + body.length / 256 % 256) * 256 +
        body.length % 256),
        (body ++ extra).drop (((body.length / 16777216 % 256 * 256 +
        body.length / 65536 % 256) * 256 + body.length / 256 % 256) * 256 +
        body.length % 256))
    else none) = some (body, extra)
  rw [hn]
  have hle : body.length ≤ (body ++ extra).length := by
    simp only [List.length_append]
    omega
  rw [if_pos hle, List.take_left, List.drop_left]

/-- Modelled from the spec: encode a `Request` as a complete wire message
(`[4-byte big-endian length][UTF-8 JSON body]`). -/
def encodeRequestMessage (r : Request) : List Nat :=
  frameMessage (utf8Encode (printRequest r))

/-- Modelled from the spec: decode one `Request` wire message from a byte
stream, returning the unconsumed remainder. -/
def decodeRequestMessage (bytes : List Nat) : Option (Request × List Nat) :=
  match unframeMessage bytes with
  | none => none
  | some (body, rest) =>
    match utf8DecodeAll body.length body with
    | none => none
    | some chars =>
      match parseRequest chars with
      | none => none
      | some req => some (req, rest)

/-- Modelled from the spec: encode a `Response` as a complete wire
message. -/
def encodeResponseMessage (r : Response) : List Nat :=
  frameMessage (utf8Encode (printResponse r))

/-- Modelled from the spec: decode one `Response` wire message from a byte
stream, returning the unconsumed remainder. -/
def decodeResponseMessage (bytes : List Nat) : Option (Response × List Nat) :=
  match unframeMessage bytes with
  | none => none
  | some (body, rest) =>
    match utf8DecodeAll body.length body with
    | none => none
    | some chars =>
      match parseResponse chars with
      | none => none
      | some resp => some (resp, rest)

/-- Outcome of an operation that may panic via `unimplemented!` in addition
to returning `Ok`/`Err` (used for `start_session` / `cancel_session`). -/
inductive OpOutcome
  | ok (resp : Response)
  | err (e : GreetdError)
  | panicked (msg : String)
  deriving Repr, DecidableEq

/-- Outcome of `GreetdClient::new`, which can panic (missing environment
variable), fail with an I/O error, or return a client. -/
inductive NewOutcome
  | ok (c : GreetdClient)
  | ioErr (e : GreetdError)
  | panicked (msg : String)
  deriving Repr, DecidableEq

/-- Model of `GreetdClient::new` (src/client.rs lines 46-64).  `envVar` is the value
of `GREETD_SOCK` in the environment (if set) and `connect` the outcome of
`UnixStream::connect` on that path. -/
def GreetdClient.new (demo : Bool) (envVar : Option String)
    (connect : Except GreetdError Unit) : NewOutcome :=
  if demo then
    NewOutcome.ok { socket := none, auth_status := AuthStatus.notStarted }
  else
    match envVar with
    | none =>
      NewOutcome.panicked "Missing environment variable 'GREETD_SOCK'. Is greetd running?"
    | some _ =>
      match connect with
      | Except.error e => NewOutcome.ioErr e
      | Except.ok s =>
        NewOutcome.ok { socket := some s, auth_status := AuthStatus.notStarted }

/-- Model of `GreetdClient::create_session` (src/client.rs lines 67-95).  `writeR` is
the outcome of `msg.write_to(socket)` and `readR` of
`Response::read_from(socket)`; both are unused in demo mode.  Returns the
result together with the client state after the call (unchanged when the
round trip fails). -/
def GreetdClient.create_session (c : GreetdClient) (username : String)
    (writeR : Except GreetdError Unit) (readR : Except GreetdError Response) :
    Except GreetdError Response × GreetdClient :=
  let respE : Except GreetdError Response :=
    match c.socket with
    | some _ =>
      match writeR with
      | Except.error e => Except.error e
      | Except.ok _ => readR
    | none =>
      Except.ok (Response.authMessage AuthMessageType.secret DEMO_AUTH_MSG_OPT)
  match respE with
  | Except.error e => (Except.error e, c)
  | Except.ok resp =>
    let status : AuthStatus :=
      match resp with
      | Response.success => AuthStatus.done
      | Response.authMessage _ _ => AuthStatus.inProgress
      | Response.error _ _ => AuthStatus.notStarted
    (Except.ok resp, { c with auth_status := status })

/-- The demo-mode stub response of `send_auth_response` (src/client.rs lines
106-116): the `match input.as_deref()` block. -/
def demoAuthResponse (input : Option String) : Response :=
  match input with
  | some s =>
    if s = DEMO_OTP then
      Response.authMessage AuthMessageType.secret DEMO_AUTH_MSG_PASSWD
    else if s = DEMO_PASSWD then
      Response.success
    else
      Response.error ErrorType.authError DEMO_AUTH_MSG_ERROR
  | none => Response.error ErrorType.authError DEMO_AUTH_MSG_ERROR

/-- Model of `GreetdClient::send_auth_response` (src/client.rs lines 98-131). -/
def GreetdClient.send_auth_response (c : GreetdClient) (input : Option String)
    (writeR : Except GreetdError Unit) (readR : Except GreetdError Response) :
    Except GreetdError Response × GreetdClient :=
  let respE : Except GreetdError Response :=
    match c.socket with
    | some _ =>
      match writeR with
      | Except.error e => Except.error e
      | Except.ok _ => readR
    | none => Except.ok (demoAuthResponse input)
  match respE with
  | Except.error e => (Except.error e, c)
  | Except.ok resp =>
    let status : AuthStatus :=
      match resp with
      | Response.success => AuthStatus.done
      | Response.authMessage _ _ => AuthStatus.inProgress
      | Response.error _ _ => AuthStatus.inProgress
    (Except.ok resp, { c with auth_status := status })

/-- Panic message of the `unimplemented!` in `start_session`
(src/client.rs line 156). -/
def START_SESSION_PANIC_MSG : String :=
  "not implemented: greetd responded with auth request after requesting session start."

/-- Panic message of the `unimplemented!` in `cancel_session`
(src/client.rs lines 176-178). -/
def CANCEL_SESSION_PANIC_MSG : String :=
  "not implemented: greetd responded with auth request after requesting session cancellation."

/-- Model of `GreetdClient::start_session` (src/client.rs lines 136-159). -/
def GreetdClient.start_session (c : GreetdClient)
    (command : List String) (environment : List String)
    (writeR : Except GreetdError Unit) (readR : Except GreetdError Response) :
    OpOutcome × GreetdClient :=
  match c.socket with
  | none => (OpOutcome.ok Response.success, c)
  | some _ =>
    match writeR with
    | Except.error e => (OpOutcome.err e, c)
    | Except.ok _ =>
      match readR with
      | Except.error e => (OpOutcome.err e, c)
      | Except.ok resp =>
        match resp with
        | Response.authMessage _ _ => (OpOutcome.panicked START_SESSION_PANIC_MSG, c)
        | _ => (OpOutcome.ok resp, c)

/-- Model of `GreetdClient::cancel_session` (src/client.rs lines 162-181).  The
status is reset to `NotStarted` before any I/O is attempted. -/
def GreetdClient.cancel_session (c : GreetdClient)
    (writeR : Except GreetdError Unit) (readR : Except GreetdError Response) :
    OpOutcome × GreetdClient :=
  let c := { c with auth_status := AuthStatus.notStarted }
  match c.socket with
  | none => (OpOutcome.ok Response.success, c)
  | some _ =>
    match writeR with
    | Except.error e => (OpOutcome.err e, c)
    | Except.ok _ =>
      match readR with
      | Except.error e => (OpOutcome.err e, c)
      | Except.ok resp =>
        match resp with
        | Response.authMessage _ _ => (OpOutcome.panicked CANCEL_SESSION_PANIC_MSG, c)
        | _ => (OpOutcome.ok resp, c)

/-- Model of `GreetdClient::get_auth_status` (src/client.rs lines 183-185). -/
def GreetdClient.get_auth_status (c : GreetdClient) : AuthStatus :=
  c.auth_status

/-- Outcome of the async task spawned by `Drop for Greeter`. -/
inductive TaskOutcome
  | completed (resp : Response)
  | panicked (msg : String)
  deriving Repr, DecidableEq

/-- The body of the task spawned by `impl Drop for Greeter`
(src/gui/model.rs lines 575-587): it awaits `cancel_session` and calls
`.expect("Couldn't cancel session on exit.")` on the result, so an `Err`
from the round trip panics the task, as does a panic inside
`cancel_session` itself. -/
def greeterDropTask (cancelResult : OpOutcome) : TaskOutcome :=
  match cancelResult with
  | OpOutcome.ok r => TaskOutcome.completed r
  | OpOutcome.err _ => TaskOutcome.panicked "Couldn't cancel session on exit."
  | OpOutcome.panicked m => TaskOutcome.panicked m

/-! ### Traces of state-machine operations (for the fold characterisation) -/

/-- One of the two state-mutating operations of the session state machine. -/
inductive SessionOp
  | createSession (username : String)
  | sendAuthResponse (input : Option String)
  deriving Repr, DecidableEq

/-- One operation of a trace together with the transport outcomes of its
socket write and socket read (ignored in demo mode). -/
structure StepInput where
  op : SessionOp
  writeR : Except GreetdError Unit
  readR : Except GreetdError Response

/-- Execute one trace step, keeping only the client state. -/
def runStep (c : GreetdClient) (s : StepInput) : GreetdClient :=
  match s.op with
  | SessionOp.createSession u => (c.create_session u s.writeR s.readR).2
  | SessionOp.sendAuthResponse i => (c.send_auth_response i s.writeR s.readR).2

/-- Execute a whole trace of operations. -/
def runTrace (c : GreetdClient) (steps : List StepInput) : GreetdClient :=
  steps.foldl runStep c

/-- The `Response` a step actually receives: in production mode the read
result when both write and read succeed (`none` on an I/O failure), in demo
mode the locally synthesised stub response. -/
def stepResponse (socket : Option Unit) (s : StepInput) : Option Response :=
  match socket with
  | some _ =>
    match s.writeR with
    | Except.error _ => none
    | Except.ok _ =>
      match s.readR with
      | Except.error _ => none
      | Except.ok r => some r
  | none =>
    some
      (match s.op with
       | SessionOp.createSession _ =>
         Response.authMessage AuthMessageType.secret DEMO_AUTH_MSG_OPT
       | SessionOp.sendAuthResponse i => demoAuthResponse i)

/-- The transition table of the specification (§4.2 / claim C1): after
`create_session`, `Success` yields `Done`, `AuthMessage` yields
`InProgress`, `Error` yields `NotStarted`; after `send_auth_response`,
`Success` yields `Done`, `AuthMessage` yields `InProgress`, `Error` leaves
it `InProgress`. -/
def specTransition (st : AuthStatus) (ev : SessionOp × Response) : AuthStatus :=
  match ev with
  | (SessionOp.createSession _, Response.success) => AuthStatus.done
  | (SessionOp.createSession _, Response.authMessage _ _) => AuthStatus.inProgress
  | (SessionOp.createSession _, Response.error _ _) => AuthStatus.notStarted
  | (SessionOp.sendAuthResponse _, Response.success) => AuthStatus.done
  | (SessionOp.sendAuthResponse _, Response.authMessage _ _) => AuthStatus.inProgress
  | (SessionOp.sendAuthResponse _, Response.error _ _) => AuthStatus.inProgress

/-- The sequence of (operation, broker `Response`) events delivered along a
trace; steps whose round trip failed with an I/O error deliver nothing. -/
def deliveredEvents (socket : Option Unit) (steps : List StepInput) :
    List (SessionOp × Response) :=
  steps.filterMap (fun s => (stepResponse socket s).map (fun r => (s.op, r)))

theorem runStep_eq (c : GreetdClient) (s : StepInput) :
    runStep c s =
      match stepResponse c.socket s with
      | none => c
      | some r => { c with auth_status := specTransition c.auth_status (s.op, r) } := by
  obtain ⟨op, w, r⟩ := s
  obtain ⟨sock, st⟩ := c
  cases sock with
  | none =>
    cases op with
    | createSession u => rfl
    | sendAuthResponse i =>
      cases hd : demoAuthResponse i <;>
        simp [runStep, GreetdClient.send_auth_response, stepResponse, specTransition, hd]
  | some u =>
    cases op <;> cases w <;> cases r <;>
      first
        | rfl
        | (rename_i resp
           cases resp <;> rfl)

theorem runStep_socket (c : GreetdClient) (s : StepInput) :
    (runStep c s).socket = c.socket := by
  rw [runStep_eq]
  cases stepResponse c.socket s <;> rfl

/-! ### Claim theorems -/

/-- C1: The `AuthStatus` held by the session state machine is a pure
function of the initial state and the sequence of broker `Response`s: for
every sequence of `create_session` / `send_auth_response` operations (with
arbitrary transport outcomes), the status after the trace equals the fold
of the transition table over the delivered `Response`s. -/
theorem auth_status_is_fold_of_responses (c : GreetdClient) (steps : List StepInput) :
    (runTrace c steps).auth_status =
      (deliveredEvents c.socket steps).foldl specTransition c.auth_status := by
  induction steps generalizing c with
  | nil => rfl
  | cons s rest ih =>
    have hsock : (runStep c s).socket = c.socket := runStep_socket c s
    have hstep := runStep_eq c s
    show (runTrace (runStep c s) rest).auth_status = _
    rw [ih (runStep c s), hsock]
    unfold deliveredEvents
    rw [List.filterMap_cons]
    cases h : stepResponse c.socket s with
    | none =>
      simp only [h] at hstep ⊢
      rw [hstep]
      rfl
    | some r =>
      simp only [h] at hstep ⊢
      rw [hstep]
      rfl

/-- C2: for every starting state and every transport outcome (including
I/O failures of the write or the read, error responses, and even the
protocol-violating `AuthMessage` response), after `cancel_session` the
`AuthStatus` is `NotStarted`. -/
theorem cancel_session_always_resets (c : GreetdClient)
    (writeR : Except GreetdError Unit) (readR : Except GreetdError Response) :
    ((c.cancel_session writeR readR).2).auth_status = AuthStatus.notStarted := by
  obtain ⟨sock, st⟩ := c
  cases sock <;> cases writeR <;> cases readR <;>
    first
      | rfl
      | (rename_i resp
         cases resp <;> rfl)

/-- C3: when a client with an open socket receives an `AuthMessage`
response to `start_session` or `cancel_session`, the operation panics with
the `unimplemented!` message instead of returning the response; every
non-`AuthMessage` response is returned to the caller unchanged. -/
theorem auth_message_after_start_or_cancel_panics (c : GreetdClient)
    (hs : c.socket = some ()) (command environment : List String)
    (t : AuthMessageType) (m : String) (resp : Response)
    (hr : ∀ t' m', resp ≠ Response.authMessage t' m') :
    (c.start_session command environment (Except.ok ())
        (Except.ok (Response.authMessage t m))).1
      = OpOutcome.panicked START_SESSION_PANIC_MSG ∧
    (c.cancel_session (Except.ok ()) (Except.ok (Response.authMessage t m))).1
      = OpOutcome.panicked CANCEL_SESSION_PANIC_MSG ∧
    (c.start_session command environment (Except.ok ()) (Except.ok resp)).1
      = OpOutcome.ok resp ∧
    (c.cancel_session (Except.ok ()) (Except.ok resp)).1 = OpOutcome.ok resp := by
  obtain ⟨sock, st⟩ := c
  simp only at hs
  subst hs
  refine ⟨rfl, rfl, ?_, ?_⟩ <;>
    cases resp <;>
      first
        | rfl
        | exact absurd rfl (hr _ _)

/-- Witness for C3 at a concrete client, command and response. -/
theorem auth_message_after_start_or_cancel_panics_witness :
    (GreetdClient.start_session ⟨some (), AuthStatus.done⟩ ["/bin/bash"] []
        (Except.ok ()) (Except.ok (Response.authMessage AuthMessageType.info "hi"))).1
      = OpOutcome.panicked START_SESSION_PANIC_MSG ∧
    (GreetdClient.cancel_session ⟨some (), AuthStatus.done⟩
        (Except.ok ()) (Except.ok (Response.authMessage AuthMessageType.info "hi"))).1
      = OpOutcome.panicked CANCEL_SESSION_PANIC_MSG ∧
    (GreetdClient.start_session ⟨some (), AuthStatus.done⟩ ["/bin/bash"] []
        (Except.ok ()) (Except.ok Response.success)).1
      = OpOutcome.ok Response.success ∧
    (GreetdClient.cancel_session ⟨some (), AuthStatus.done⟩
        (Except.ok ()) (Except.ok Response.success)).1 = OpOutcome.ok Response.success :=
  auth_message_after_start_or_cancel_panics ⟨some (), AuthStatus.done⟩ rfl
    ["/bin/bash"] [] AuthMessageType.info "hi" Response.success
    (fun _ _ h => Response.noConfusion h)

/-- C4: the demo-mode script: `create_session` with any username returns
`AuthMessage{Secret, "One-Time Password:"}`; responding `"0248"` returns
`AuthMessage{Secret, "Password:"}`; responding `"pass"` returns `Success`;
responding anything else returns `Error{AuthError,
"pam_authenticate: AUTH_ERR"}`. -/
theorem demo_mode_script (c : GreetdClient) (h : c.socket = none)
    (username : String) (other : String)
    (h1 : other ≠ "0248") (h2 : other ≠ "pass")
    (w w1 w2 w3 : Except GreetdError Unit)
    (r r1 r2 r3 : Except GreetdError Response) :
    (c.create_session username w r).1
      = Except.ok (Response.authMessage AuthMessageType.secret "One-Time Password:") ∧
    (c.send_auth_response (some "0248") w1 r1).1
      = Except.ok (Response.authMessage AuthMessageType.secret "Password:") ∧
    (c.send_auth_response (some "pass") w2 r2).1 = Except.ok Response.success ∧
    (c.send_auth_response (some other) w3 r3).1
      = Except.ok (Response.error ErrorType.authError "pam_authenticate: AUTH_ERR") := by
  obtain ⟨sock, st⟩ := c
  simp only at h
  subst h
  refine ⟨rfl, rfl, rfl, ?_⟩
  simp only [GreetdClient.send_auth_response, demoAuthResponse, DEMO_OTP, DEMO_PASSWD,
    DEMO_AUTH_MSG_ERROR, if_neg h1, if_neg h2]

/-- Witness for C4 at a concrete demo client and inputs. -/
theorem demo_mode_script_witness :
    (GreetdClient.create_session ⟨none, AuthStatus.notStarted⟩ "anyuser"
        (Except.ok ()) (Except.ok Response.success)).1
      = Except.ok (Response.authMessage AuthMessageType.secret "One-Time Password:") ∧
    (GreetdClient.send_auth_response ⟨none, AuthStatus.notStarted⟩ (some "0248")
        (Except.ok ()) (Except.ok Response.success)).1
      = Except.ok (Response.authMessage AuthMessageType.secret "Password:") ∧
    (GreetdClient.send_auth_response ⟨none, AuthStatus.notStarted⟩ (some "pass")
        (Except.ok ()) (Except.ok Response.success)).1 = Except.ok Response.success ∧
    (GreetdClient.send_auth_response ⟨none, AuthStatus.notStarted⟩ (some "wrong")
        (Except.ok ()) (Except.ok Response.success)).1
      = Except.ok (Response.error ErrorType.authError "pam_authenticate: AUTH_ERR") :=
  demo_mode_script ⟨none, AuthStatus.notStarted⟩ rfl "anyuser" "wrong"
    (by decide) (by decide) (Except.ok ()) (Except.ok ()) (Except.ok ()) (Except.ok ())
    (Except.ok Response.success) (Except.ok Response.success)
    (Except.ok Response.success) (Except.ok Response.success)

/-- C5 counterexample: the teardown task spawned by `Drop for Greeter` does
NOT complete when `cancel_session` fails — at a concrete client whose
socket write fails, the task panics with the `expect` message instead of
logging and swallowing the failure. -/
theorem drop_task_panics_counterexample :
    greeterDropTask
        (GreetdClient.cancel_session ⟨some (), AuthStatus.inProgress⟩
          (Except.error ⟨0⟩) (Except.ok Response.success)).1
      = TaskOutcome.panicked "Couldn't cancel session on exit." := rfl

/-- C5 (amended): `Drop for Greeter` spawns the cancellation onto the async
runtime (so `drop` itself returns immediately), but the spawned task calls
`expect` on the result of `cancel_session`: a successful round trip
completes the task, while an `Err` panics it with
"Couldn't cancel session on exit." (and an inner `unimplemented!` panic
propagates), rather than being logged and swallowed. -/
theorem drop_task_outcome (e : GreetdError) (r : Response) (m : String) :
    greeterDropTask (OpOutcome.ok r) = TaskOutcome.completed r ∧
    greeterDropTask (OpOutcome.err e)
      = TaskOutcome.panicked "Couldn't cancel session on exit." ∧
    greeterDropTask (OpOutcome.panicked m) = TaskOutcome.panicked m :=
  ⟨rfl, rfl, rfl⟩

/-- C6: in production mode (`demo = false`), a missing `GREETD_SOCK`
environment variable makes `new` panic (a fatal condition, not a
recoverable error value), and a connection failure yields an error — in
neither case is a client constructed. -/
theorem new_fatal_conditions (p : String) (e : GreetdError)
    (connect : Except GreetdError Unit) :
    GreetdClient.new false none connect
      = NewOutcome.panicked "Missing environment variable 'GREETD_SOCK'. Is greetd running?" ∧
    GreetdClient.new false (some p) (Except.error e) = NewOutcome.ioErr e :=
  ⟨rfl, rfl⟩

/-- C8: `start_session` never modifies the client: for every starting
state, demo or production, and every transport outcome (success, error
response, I/O failure, or panic on `AuthMessage`), the client state after
the call equals the state before it. -/
theorem start_session_frame (c : GreetdClient)
    (command environment : List String)
    (writeR : Except GreetdError Unit) (readR : Except GreetdError Response) :
    (c.start_session command environment writeR readR).2 = c := by
  obtain ⟨sock, st⟩ := c
  cases sock <;> cases writeR <;> cases readR <;>
    first
      | rfl
      | (rename_i resp
         cases resp <;> rfl)

/-- C9: if the transport write or the transport read fails with an I/O
error during `create_session` or `send_auth_response` (production mode),
the operation returns that error and the client state is unchanged. -/
theorem io_error_leaves_client_unchanged (c : GreetdClient)
    (hs : c.socket = some ()) (username : String) (input : Option String)
    (e : GreetdError) (readR : Except GreetdError Response) :
    c.create_session username (Except.error e) readR = (Except.error e, c) ∧
    c.create_session username (Except.ok ()) (Except.error e) = (Except.error e, c) ∧
    c.send_auth_response input (Except.error e) readR = (Except.error e, c) ∧
    c.send_auth_response input (Except.ok ()) (Except.error e) = (Except.error e, c) := by
  obtain ⟨sock, st⟩ := c
  simp only at hs
  subst hs
  exact ⟨rfl, rfl, rfl, rfl⟩

/-- Witness for C9 at a concrete client and error. -/
theorem io_error_leaves_client_unchanged_witness :
    GreetdClient.create_session ⟨some (), AuthStatus.notStarted⟩ "alice"
        (Except.error ⟨7⟩) (Except.ok Response.success)
      = (Except.error ⟨7⟩, ⟨some (), AuthStatus.notStarted⟩) ∧
    GreetdClient.create_session ⟨some (), AuthStatus.notStarted⟩ "alice"
        (Except.ok ()) (Except.error ⟨7⟩)
      = (Except.error ⟨7⟩, ⟨some (), AuthStatus.notStarted⟩) ∧
    GreetdClient.send_auth_response ⟨some (), AuthStatus.notStarted⟩ (some "pw")
        (Except.error ⟨7⟩) (Except.ok Response.success)
      = (Except.error ⟨7⟩, ⟨some (), AuthStatus.notStarted⟩) ∧
    GreetdClient.send_auth_response ⟨some (), AuthStatus.notStarted⟩ (some "pw")
        (Except.ok ()) (Except.error ⟨7⟩)
      = (Except.error ⟨7⟩, ⟨some (), AuthStatus.notStarted⟩) :=
  io_error_leaves_client_unchanged ⟨some (), AuthStatus.notStarted⟩ rfl "alice"
    (some "pw") ⟨7⟩ (Except.ok Response.success)

/-- C10: the demo-mode stub of `send_auth_response` is stateless: its
response depends only on the input text, not on the current `AuthStatus`
or any prior operation; in particular, for every demo-mode state,
responding `"pass"` returns `Success` and sets the status to `Done` even
if the one-time password was never supplied. -/
theorem demo_send_auth_response_stateless (c c' : GreetdClient)
    (h : c.socket = none) (h' : c'.socket = none) (input : Option String)
    (w w' : Except GreetdError Unit) (r r' : Except GreetdError Response) :
    (c.send_auth_response input w r).1 = (c'.send_auth_response input w' r').1 ∧
    c.send_auth_response (some "pass") w r
      = (Except.ok Response.success, { c with auth_status := AuthStatus.done }) := by
  obtain ⟨sock, st⟩ := c
  obtain ⟨sock', st'⟩ := c'
  simp only at h h'
  subst h
  subst h'
  constructor
  · cases demoAuthResponse input <;> rfl
  · rfl

/-- Witness for C10: two demo clients in different states produce the same
response, and `"pass"` succeeds from a state that never saw the OTP. -/
theorem demo_send_auth_response_stateless_witness :
    (GreetdClient.send_auth_response ⟨none, AuthStatus.notStarted⟩ (some "x")
        (Except.ok ()) (Except.ok Response.success)).1
      = (GreetdClient.send_auth_response ⟨none, AuthStatus.done⟩ (some "x")
          (Except.error ⟨1⟩) (Except.error ⟨2⟩)).1 ∧
    GreetdClient.send_auth_response ⟨none, AuthStatus.notStarted⟩ (some "pass")
        (Except.ok ()) (Except.ok Response.success)
      = (Except.ok Response.success, ⟨none, AuthStatus.done⟩) :=
  demo_send_auth_response_stateless ⟨none, AuthStatus.notStarted⟩
    ⟨none, AuthStatus.done⟩ rfl rfl (some "x") (Except.ok ()) (Except.error ⟨1⟩)
    (Except.ok Response.success) (Except.error ⟨2⟩)

/-- C7: wire round-trip: encoding any valid `Request` with the wire codec
(4-byte big-endian length prefix followed by UTF-8 JSON) and then decoding
yields a value equal to the original, and likewise for every valid
`Response` (the length hypotheses reflect the 32-bit length header). -/
theorem wire_codec_roundtrip (req : Request) (resp : Response)
    (h1 : (utf8Encode (printRequest req)).length < 4294967296)
    (h2 : (utf8Encode (printResponse resp)).length < 4294967296) :
    decodeRequestMessage (encodeRequestMessage req) = some (req, []) ∧
    decodeResponseMessage (encodeResponseMessage resp) = some (resp, []) := by
  constructor
  · have hf := unframeMessage_frame (utf8Encode (printRequest req)) [] h1
    rw [List.append_nil] at hf
    show decodeRequestMessage (frameMessage (utf8Encode (printRequest req))) = _
    unfold decodeRequestMessage
    rw [hf]
    show (match utf8DecodeAll (utf8Encode (printRequest req)).length
        (utf8Encode (printRequest req)) with
      | none => none
      | some chars =>
        match parseRequest chars with
        | none => none
        | some r => some (r, ([] : List Nat))) = _
    rw [utf8DecodeAll_encode _ _ (length_le_utf8Encode _)]
    show (match parseRequest (printRequest req) with
      | none => none
      | some r => some (r, ([] : List Nat))) = _
    rw [parseRequest_print]
  · have hf := unframeMessage_frame (utf8Encode (printResponse resp)) [] h2
    rw [List.append_nil] at hf
    show decodeResponseMessage (frameMessage (utf8Encode (printResponse resp))) = _
    unfold decodeResponseMessage
    rw [hf]
    show (match utf8DecodeAll (utf8Encode (printResponse resp)).length
        (utf8Encode (printResponse resp)) with
      | none => none
      | some chars =>
        match parseResponse chars with
        | none => none
        | some r => some (r, ([] : List Nat))) = _
    rw [utf8DecodeAll_encode _ _ (length_le_utf8Encode _)]
    show (match parseResponse (printResponse resp) with
      | none => none
      | some r => some (r, ([] : List Nat))) = _
    rw [parseResponse_print]

/-- Witness for C7 at a concrete request and response. -/
theorem wire_codec_roundtrip_witness :
    decodeRequestMessage (encodeRequestMessage Request.cancelSession)
      = some (Request.cancelSession, []) ∧
    decodeResponseMessage (encodeResponseMessage Response.success)
      = some (Response.success, []) :=
  wire_codec_roundtrip Request.cancelSession Response.success (by decide) (by decide)

end ReGreet
